import Mathlib

/-!
Shallow embedding of the k8s-bitwarden-reader status dashboard.

The embedding follows the Go sources:
  * `internal/reader/reader.go` — the Reader Orchestrator (`ReadSecrets`,
    `readCRDInfo`) and the Resource Resolver (`GetBitwardenSecretCRD`,
    `handleGetError`, `handleNotFoundError`, `checkAPIDiscovery`,
    `isAPIDiscoveryError`, the `extract*` helpers).
  * `internal/k8s/secrets.go` — `DecodeSecretData`, `GetSecretSyncTime`,
    `IsSecretNotFound`.
  * the server package — the websocket `Hub` (`run`, `broadcastMessage`)
    and the HTTP `triggerSyncHandler`.

Go byte strings are modelled as `List Nat` (each entry a byte value),
Go `string` identifiers as Lean `String`, Go maps as association lists,
and the Kubernetes backend as records of functions.  Every observable
backend interaction is additionally recorded in an explicit call trace so
that claims about which lookups happen (and in which order) can be stated.
-/

namespace BitwardenReader

/-- `strings.Contains`: substring test, used to inspect error messages. -/
def hasSubstr (s sub : String) : Bool :=
  (s.toList.tails.any (fun t => sub.toList.isPrefixOf t))

/-- `strings.HasPrefix`. -/
def hasPfx (p s : String) : Bool :=
  p.toList.isPrefixOf s.toList

/-- `strings.TrimPrefix`: drop `p` from the front of `s` when present. -/
def trimLeading (p s : String) : String :=
  if hasPfx p s then String.mk (s.toList.drop p.toList.length) else s

/-- `unicode.IsSpace` on the ASCII whitespace characters (the only ones
that occur in the configured name lists). -/
def isGoSpace (c : Char) : Bool :=
  c = ' ' || c = '\t' || c = '\n' || c = '\r' || c = '\x0b' || c = '\x0c'

/-- `strings.TrimSpace`: strip leading and trailing whitespace. -/
def goTrimSpace (s : String) : String :=
  String.mk (((s.toList.dropWhile isGoSpace).reverse.dropWhile isGoSpace).reverse)

/-! ## base64 (Go `encoding/base64`, `StdEncoding`, non-strict decode)

Go's default std decoder requires `=` padding, rejects input whose length
(after ignoring `\r` and `\n`) is not a multiple of four, allows padding
only at the very end, and does not reject non-zero trailing bits. -/

/-- Value of one base64 alphabet byte, `none` for a byte outside the alphabet. -/
def b64Val (c : Nat) : Option Nat :=
  if 65 ≤ c ∧ c ≤ 90 then some (c - 65)
  else if 97 ≤ c ∧ c ≤ 122 then some (c - 97 + 26)
  else if 48 ≤ c ∧ c ≤ 57 then some (c - 48 + 52)
  else if c = 43 then some 62
  else if c = 47 then some 63
  else none

/-- The decoder ignores carriage returns and newlines embedded in the input. -/
def stripCRLF (bs : List Nat) : List Nat :=
  bs.filter (fun b => !(b == 10 || b == 13))

/-- Decode whole 4-byte quanta; `61` is the padding byte `=`. -/
def b64Quanta : List Nat → Option (List Nat)
  | [] => some []
  | c1 :: c2 :: c3 :: c4 :: rest =>
    match b64Val c1, b64Val c2 with
    | some v1, some v2 =>
      if c3 = 61 then
        if c4 = 61 ∧ rest = [] then
          some [v1 * 4 + v2 / 16]
        else none
      else
        match b64Val c3 with
        | some v3 =>
          if c4 = 61 then
            if rest = [] then
              some [v1 * 4 + v2 / 16, (v2 % 16) * 16 + v3 / 4]
            else none
          else
            match b64Val c4 with
            | some v4 =>
              (b64Quanta rest).map
                (fun tl => (v1 * 4 + v2 / 16) :: ((v2 % 16) * 16 + v3 / 4) ::
                  ((v3 % 4) * 64 + v4) :: tl)
            | none => none
        | none => none
    | _, _ => none
  | _ => none

/-- `base64.StdEncoding.DecodeString`, as a partial function on byte strings. -/
def goB64Decode (bs : List Nat) : Option (List Nat) :=
  b64Quanta (stripCRLF bs)

/-- Bytes of a Lean string literal (used only to name concrete inputs). -/
def strBytes (s : String) : List Nat :=
  s.toList.map Char.toNat

/-! ## Kubernetes errors

A `K8sErr` records the signals the code inspects on a backend error:
the `k8s.io/apimachinery` status predicates (`errors.IsNotFound`,
`errors.IsForbidden`, `errors.IsMethodNotSupported`, `errors.IsInvalid`)
and the rendered message `err.Error()` used by `%v` formatting and the
substring checks. -/

structure K8sErr where
  isNotFound : Bool := false
  isForbidden : Bool := false
  isMethodNotSupported : Bool := false
  isInvalid : Bool := false
  msg : String := ""
deriving DecidableEq

/-- `%v` of an error: its message. -/
def errString (e : K8sErr) : String := e.msg

/-- `isAPIDiscoveryError` (reader.go): message-based discovery-failure test. -/
def isAPIDiscoveryError (e : K8sErr) : Bool :=
  hasSubstr e.msg ("the server could not find the requested resource") ||
  hasSubstr e.msg ("could not find the requested resource") ||
  hasSubstr e.msg ("no matches for kind")

/-! ## The BitwardenSecret custom resource

`unstructured.Unstructured` is modelled by the fields the code reads;
`none` stands for "field absent or of the wrong type" (the code treats
`NestedString` errors and `found=false` identically: it keeps the
default). -/

/-- One entry of `status.conditions` that is a JSON object. -/
structure CondMap where
  condType : Option String := none
  status : Option String := none
  reason : Option String := none
  message : Option String := none
deriving DecidableEq

/-- An entry of `status.conditions`: an object, or some other JSON value
(the code skips entries that are not `map[string]interface\x7b\x7d`). -/
inductive CondEntry
  | condMap (m : CondMap)
  | notMap
deriving DecidableEq

/-- The parts of the unstructured CRD object the code reads. -/
structure UnstructuredObj where
  creationTimestamp : Option String := none
  lastSuccessfulSyncTime : Option String := none
  conditions : Option (List CondEntry) := none
deriving DecidableEq

/-- `CRDInfo` (reader.go / crd.go): sync information extracted from the CRD. -/
structure CRDInfo where
  crdFound : Bool := false
  lastSuccessfulSync : String := ""
  syncStatus : String := ""
  syncReason : String := ""
  syncMessage : String := ""
  crdCreationTime : String := ""
deriving DecidableEq

/-- `extractMetadata`: copy `metadata.creationTimestamp` when present. -/
def extractMetadata (obj : UnstructuredObj) (info : CRDInfo) : CRDInfo :=
  match obj.creationTimestamp with
  | some t => { info with crdCreationTime := t }
  | none => info

/-- `extractStatusFields`: copy `status.lastSuccessfulSyncTime` when present. -/
def extractStatusFields (obj : UnstructuredObj) (info : CRDInfo) : CRDInfo :=
  match obj.lastSuccessfulSyncTime with
  | some t => { info with lastSuccessfulSync := t }
  | none => info

/-- `extractConditionFields`: copy status/reason/message of one condition. -/
def extractConditionFields (m : CondMap) (info : CRDInfo) : CRDInfo :=
  let info := match m.status with
    | some s => { info with syncStatus := s }
    | none => info
  let info := match m.reason with
    | some r => { info with syncReason := r }
    | none => info
  match m.message with
  | some s => { info with syncMessage := s }
  | none => info

/-- The loop of `extractConditions`: first condition object whose `type`
field equals "SuccessfulSync"; later matches are ignored. -/
def findSuccessfulSyncCond : List CondEntry → Option CondMap
  | [] => none
  | CondEntry.notMap :: rest => findSuccessfulSyncCond rest
  | CondEntry.condMap m :: rest =>
    if m.condType = some ("SuccessfulSync") then some m
    else findSuccessfulSyncCond rest

/-- `extractConditions`: extract from the first SuccessfulSync condition. -/
def extractConditions (obj : UnstructuredObj) (info : CRDInfo) : CRDInfo :=
  match obj.conditions with
  | none => info
  | some conds =>
    match findSuccessfulSyncCond conds with
    | none => info
    | some m => extractConditionFields m info

/-- `extractCRDInfo`: all extraction steps on a successfully fetched object. -/
def extractCRDInfo (obj : UnstructuredObj) : CRDInfo :=
  extractConditions obj (extractStatusFields obj (extractMetadata obj { crdFound := true }))

/-! ## The dynamic client and the call trace

`dynamic.Interface` is modelled by the behaviour of the three requests
the resolver issues against the BitwardenSecret GVR; the secret store by
the behaviour of `Secrets(namespace).Get`.  Each embedded operation also
returns the list of calls it performed, so that claims about which
lookups happen, and in which order, are statable. -/

/-- Backend behaviour of `dynamic.Interface` for the BitwardenSecret GVR. -/
structure DynClient where
  /-- `Resource(gvr).Namespace(ns).List(ctx, Limit 1)`: `some e` is a failure. -/
  listNs : String → Option K8sErr
  /-- `Resource(gvr).Namespace(ns).Get(ctx, name)` — arguments (name, ns). -/
  getNs : String → String → Except K8sErr UnstructuredObj
  /-- `Resource(gvr).Get(ctx, name)` — the cluster-scoped get. -/
  getCluster : String → Except K8sErr UnstructuredObj

/-- One observable call: a backend request, or entry into the resolver. -/
inductive Call
  | list (ns : String)
  | nsGet (name ns : String)
  | clusterGet (name : String)
  | secretGet (name ns : String)
  | resolve (name ns : String)
  | triggerSync (name ns : String)
deriving DecidableEq

/-- `checkAPIDiscovery` (reader.go): probe discovery with a one-item List.
Only a List error carrying a discovery signal is reported; any other List
failure (forbidden included) lets the caller continue with Get. -/
def checkAPIDiscovery (ns : String) (dc : DynClient) :
    Option K8sErr × List Call :=
  match dc.listNs ns with
  | some listErr =>
    if isAPIDiscoveryError listErr then (some listErr, [Call.list ns])
    else (none, [Call.list ns])
  | none => (none, [Call.list ns])

/-- The message built for a discovery failure (GVR group "k8s.bitwarden.com"). -/
def discoveryMsg (e : K8sErr) : String :=
  "API group \x27k8s.bitwarden.com\x27 not discoverable. CRD may not be installed or API server hasn\x27t discovered it yet. Error: " ++ errString e

/-- `handleNotFoundError` (reader.go): after a ns-scoped 404, retry
cluster-scoped; classify the second outcome.  Always (info, nil error). -/
def handleNotFoundError (name ns : String) (dc : DynClient) :
    (Option CRDInfo × Option K8sErr) × List Call :=
  match dc.getCluster name with
  | Except.ok obj => ((some (extractCRDInfo obj), none), [Call.clusterGet name])
  | Except.error e =>
    if e.isNotFound then
      ((some { crdFound := false, syncMessage := "CRD not found: " ++ name }, none),
        [Call.clusterGet name])
    else
      ((some { crdFound := false,
               syncMessage := "Failed to get CRD (cluster-scoped): " ++ errString e }, none),
        [Call.clusterGet name])

/-- `handleGetError` (reader.go): classify a ns-scoped Get error.
Discovery signals are checked before the 404 test; only a plain 404
reaches the cluster-scoped retry.  Always (info, nil error). -/
def handleGetError (name ns : String) (e : K8sErr) (dc : DynClient) :
    (Option CRDInfo × Option K8sErr) × List Call :=
  if isAPIDiscoveryError e then
    ((some { crdFound := false, syncMessage := discoveryMsg e }, none), [])
  else if e.isNotFound then
    handleNotFoundError name ns dc
  else if e.isForbidden then
    ((some { crdFound := false,
             syncMessage := "Permission denied accessing CRD " ++ name ++
               ". Check RBAC permissions. Error: " ++ errString e }, none), [])
  else if e.isMethodNotSupported || e.isInvalid then
    ((some { crdFound := false,
             syncMessage := "API group/resource issue: " ++ errString e }, none), [])
  else
    ((some { crdFound := false,
             syncMessage := "Failed to get CRD: " ++ errString e }, none), [])

/-- `GetBitwardenSecretCRD` (reader.go, the resolver): validate inputs,
probe discovery, try the ns-scoped Get, and classify any failure.
`dynamicClient = none` is Go's nil interface. -/
def GetBitwardenSecretCRD (name ns : String) (dynamicClient : Option DynClient) :
    (Option CRDInfo × Option K8sErr) × List Call :=
  match dynamicClient with
  | none =>
    ((some { crdFound := false, syncMessage := "DynamicClient not initialized" }, none), [])
  | some dc =>
    if name = "" then
      ((some { crdFound := false, syncMessage := "CRD name is empty" }, none), [])
    else if ns = "" then
      ((some { crdFound := false, syncMessage := "Namespace is empty" }, none), [])
    else
      let apiProbe := checkAPIDiscovery ns dc
      match apiProbe.1 with
      | some apiErr =>
        ((some { crdFound := false, syncMessage := discoveryMsg apiErr }, none), apiProbe.2)
      | none =>
        match dc.getNs name ns with
        | Except.ok obj =>
          ((some (extractCRDInfo obj), none), apiProbe.2 ++ [Call.nsGet name ns])
        | Except.error e =>
          let handled := handleGetError name ns e dc
          (handled.1, apiProbe.2 ++ [Call.nsGet name ns] ++ handled.2)

/-! ## Secrets (internal/k8s/secrets.go) -/

/-- The parts of `corev1.Secret` the code reads: `Data` (a map from key to
byte string) and `Annotations` (nil or a map of strings). -/
structure Secret where
  data : List (String × List Nat) := []
  annotations : Option (List (String × String)) := none
deriving DecidableEq

/-- Go map indexing on a string map: zero value "" when the key is absent. -/
def lookupStr (m : List (String × String)) (k : String) : String :=
  match m.find? (fun p => p.1 == k) with
  | some p => p.2
  | none => ""

/-- `GetSecretSyncTime`: the sync-time annotation, "" when absent. -/
def GetSecretSyncTime (secret : Secret) : String :=
  match secret.annotations with
  | none => ""
  | some anns => lookupStr anns ("bitwarden-secrets-operator.io/sync-time")

/-- The per-value step of `DecodeSecretData`: decoded bytes on success,
the raw value unchanged when decoding fails. -/
def decodeValue (value : List Nat) : List Nat :=
  match goB64Decode value with
  | some decodedValue => decodedValue
  | none => value

/-- `DecodeSecretData`: decode every value of the secret's data map. -/
def DecodeSecretData (data : List (String × List Nat)) : List (String × List Nat) :=
  data.map (fun kv => (kv.1, decodeValue kv.2))

/-- `IsSecretNotFound`: `errors.IsNotFound`. -/
def IsSecretNotFound (e : K8sErr) : Bool := e.isNotFound

/-! ## Reader Orchestrator (internal/reader/reader.go) -/

/-- `SyncInfo` (reader.SyncInfo): per-entry synchronization information. -/
structure SyncInfo where
  crdFound : Bool := false
  lastSuccessfulSync : String := ""
  k8sSecretSyncTime : String := ""
  syncStatus : String := ""
  syncReason : String := ""
  syncMessage : String := ""
  crdCreationTime : String := ""
deriving DecidableEq

/-- `SecretInfo` (reader.SecretInfo): one snapshot entry. -/
structure SecretInfo where
  name : String := ""
  found : Bool := false
  keys : List (String × List Nat) := []
  syncInfo : SyncInfo := {}
  error : String := ""
deriving DecidableEq

/-- `K8sClients`: the clientset (abstracted to the behaviour of
`Secrets(ns).Get`, which `k8s.ReadSecret` passes through unchanged) and
the dynamic client (nil-able). -/
structure K8sClients where
  readSecret : String → String → Except K8sErr Secret
  dynamicClient : Option DynClient

/-- The field-by-field merge at the end of `readCRDInfo`: every CRD field
is copied into the entry's SyncInfo; `k8sSecretSyncTime` is untouched. -/
def mergeCRDInfo (si : SyncInfo) (crdInfo : CRDInfo) : SyncInfo :=
  { si with
    crdFound := crdInfo.crdFound
    lastSuccessfulSync := crdInfo.lastSuccessfulSync
    syncStatus := crdInfo.syncStatus
    syncReason := crdInfo.syncReason
    syncMessage := crdInfo.syncMessage
    crdCreationTime := crdInfo.crdCreationTime }

/-- `readCRDInfo`: guard on the dynamic client, call the resolver, then
either record the error in `syncMessage` or merge the returned fields.
The leading `Call.resolve` entry marks the resolver invocation and the
resource name passed to it. -/
def readCRDInfo (crdName ns secretName : String) (k8sClients : K8sClients)
    (secretInfo : SecretInfo) : SecretInfo × List Call :=
  match k8sClients.dynamicClient with
  | none =>
    ({ secretInfo with
       syncInfo := { secretInfo.syncInfo with syncMessage := "DynamicClient not initialized" } },
      [])
  | some _ =>
    let res := GetBitwardenSecretCRD crdName ns k8sClients.dynamicClient
    let calls := Call.resolve crdName ns :: res.2
    match res.1.2 with
    | some e =>
      ({ secretInfo with
         syncInfo := { secretInfo.syncInfo with
                       syncMessage := "Error reading CRD: " ++ errString e } },
        calls)
    | none =>
      match res.1.1 with
      | some crdInfo =>
        ({ secretInfo with syncInfo := mergeCRDInfo secretInfo.syncInfo crdInfo }, calls)
      | none => (secretInfo, calls)

/-- The body of the `ReadSecrets` loop for one trimmed, non-blank name:
read the secret, record a per-entry error on failure, otherwise decode the
data, extract the sync-time annotation, and — only when the name starts
with "bw-" — read the CRD under the name with that prefix removed. -/
def readOneSecret (secretName ns : String) (k8sClients : K8sClients) :
    SecretInfo × List Call :=
  let secretInfo : SecretInfo :=
    { name := secretName, found := false, keys := [], syncInfo := {} }
  match k8sClients.readSecret secretName ns with
  | Except.error e =>
    let msg :=
      if IsSecretNotFound e then "Secret \x27" ++ secretName ++ "\x27 not found"
      else "Error reading secret: " ++ errString e
    ({ secretInfo with error := msg }, [Call.secretGet secretName ns])
  | Except.ok secret =>
    let secretInfo :=
      { secretInfo with
        found := true
        keys := DecodeSecretData secret.data
        syncInfo := { secretInfo.syncInfo with k8sSecretSyncTime := GetSecretSyncTime secret } }
    if hasPfx ("bw-") secretName then
      let crdName := trimLeading ("bw-") secretName
      let stepped := readCRDInfo crdName ns secretName k8sClients secretInfo
      (stepped.1, Call.secretGet secretName ns :: stepped.2)
    else
      (secretInfo, [Call.secretGet secretName ns])

/-- The `ReadSecrets` loop over the configured names (connected mode). -/
def readSecretsLoop (ns : String) (k8sClients : K8sClients) :
    List String → List SecretInfo × List Call
  | [] => ([], [])
  | secretName :: rest =>
    let trimmed := goTrimSpace secretName
    if trimmed = "" then readSecretsLoop ns k8sClients rest
    else
      let stepped := readOneSecret trimmed ns k8sClients
      let tail := readSecretsLoop ns k8sClients rest
      (stepped.1 :: tail.1, stepped.2 ++ tail.2)

/-- The standalone-mode loop of `ReadSecrets`: one synthesized entry per
trimmed, non-blank name. -/
def standaloneEntries : List String → List SecretInfo
  | [] => []
  | secretName :: rest =>
    let trimmed := goTrimSpace secretName
    if trimmed = "" then standaloneEntries rest
    else
      { name := trimmed, found := false, keys := [], syncInfo := {},
        error := "Kubernetes client not available - running in standalone mode" }
        :: standaloneEntries rest

/-- `ReadSecrets`: standalone mode when no clients are available,
otherwise the per-name loop.  The Go function also returns an `error`
which is nil on every path; only the entry list is modelled.  The second
component is the trace of backend calls made during the cycle. -/
def ReadSecrets (secretNames : List String) (ns : String)
    (k8sClients : Option K8sClients) : List SecretInfo × List Call :=
  match k8sClients with
  | none => (standaloneEntries secretNames, [])
  | some clients => readSecretsLoop ns clients secretNames

/-! ## Broadcast Hub (server package, hub.go)

A client's unbuffered pointer identity is modelled by a `Nat` id, its
buffered `send` channel by a queue (list of pending messages) plus its
capacity (256 in `wsHandler`).  The hub state is the `clients` set plus
the ordered record of `close(client.send)` events, so that "closed
exactly once" is statable.  The `run` loop serializes all mutation; its
three cases are modelled as three functions on the hub state. -/

/-- One registered websocket client: identity, channel capacity, queue. -/
structure ClientConn where
  id : Nat
  capacity : Nat := 256
  sendQueue : List (List Nat) := []
deriving DecidableEq

/-- The hub state: the client set and the history of channel closes. -/
structure Hub where
  clients : List ClientConn := []
  closedEvents : List Nat := []
deriving DecidableEq

/-- The `register` case of `Hub.run`: map insert (re-inserting the same
client pointer is a no-op since the stored value is `true`). -/
def hubRegister (c : ClientConn) (h : Hub) : Hub :=
  if h.clients.any (fun x => x.id == c.id) then h
  else { h with clients := h.clients ++ [c] }

/-- The `unregister` case of `Hub.run`: when the client is present, delete
it and close its send channel; otherwise do nothing. -/
def hubUnregister (cid : Nat) (h : Hub) : Hub :=
  if h.clients.any (fun x => x.id == cid) then
    { clients := h.clients.filter (fun x => x.id != cid),
      closedEvents := h.closedEvents ++ [cid] }
  else h

/-- The `broadcast` case of `Hub.run`: per client, a non-blocking send —
a client whose buffered channel has free space receives the message; a
client whose channel is full has its channel closed and is deleted. -/
def hubBroadcast (message : List Nat) (h : Hub) : Hub :=
  { clients := h.clients.filterMap (fun c =>
      if c.sendQueue.length < c.capacity then
        some { c with sendQueue := c.sendQueue ++ [message] }
      else none),
    closedEvents := h.closedEvents ++
      (h.clients.filter (fun c => !(c.sendQueue.length < c.capacity))).map (fun c => c.id) }

/-- `Hub.broadcastMessage`: a non-blocking send on the unbuffered
`broadcast` channel (`select` with `default`).  `hubReady` says whether
the `run` loop is ready to receive; when it is not, the publish attempt
is dropped and the state is unchanged.  `json.Marshal` is abstracted by
taking the already-serialized message. -/
def broadcastMessage (hubReady : Bool) (message : List Nat) (h : Hub) : Hub :=
  if hubReady then hubBroadcast message h else h

/-! ## Trigger endpoint (server package, handlers.go) -/

/-- Server configuration: the configured names and the pod namespace. -/
structure ServerConfig where
  secretNames : List String := []
  podNamespace : String := ""

/-- Behaviour of `k8s.TriggerSync` (the Resource Store's merge-patch of
the force-sync annotation): `some e` is a failure. -/
structure TriggerBackend where
  triggerSync : String → String → Option K8sErr

/-- Outcome of `c.ShouldBindJSON` on the request body. -/
inductive BindOutcome
  | bound (secretNames : List String)
  | bindError
deriving DecidableEq

/-- The JSON response of the trigger endpoint.  The 206 body carries
`successes` and `errors`; the 200 body carries `message` and `successes`
(no `errors` key, modelled as the empty list); the 503 body carries only
`error`, modelled by `errorMsg`. -/
structure TriggerResponse where
  status : Nat
  successes : List String := []
  errors : List String := []
  message : String := ""
  errorMsg : String := ""
deriving DecidableEq

/-- The per-name loop of `triggerSyncHandler`: trim, skip blanks, call
`k8s.TriggerSync`, and collect successes and failure messages in order. -/
def triggerLoop (backend : TriggerBackend) (ns : String) :
    List String → List String × List String × List Call
  | [] => ([], [], [])
  | secretName :: rest =>
    let trimmed := goTrimSpace secretName
    if trimmed = "" then triggerLoop backend ns rest
    else
      let tail := triggerLoop backend ns rest
      match backend.triggerSync trimmed ns with
      | some e =>
        (tail.1, (trimmed ++ ": " ++ errString e) :: tail.2.1,
          Call.triggerSync trimmed ns :: tail.2.2)
      | none =>
        (trimmed :: tail.1, tail.2.1, Call.triggerSync trimmed ns :: tail.2.2)

/-- `triggerSyncHandler`: 503 in standalone mode; a bind failure or an
empty bound list falls back to the full configured name list; 206 with
successes and errors when any name failed, otherwise one forced
out-of-band publish (`broadcastSecrets`, reported by the Bool) and 200.
The third component is the trace of `TriggerSync` calls made. -/
def triggerSyncHandler (config : ServerConfig) (k8sClients : Option TriggerBackend)
    (body : BindOutcome) : TriggerResponse × Bool × List Call :=
  match k8sClients with
  | none =>
    ({ status := 503,
       errorMsg := "Kubernetes client not available - running in standalone mode" },
      false, [])
  | some backend =>
    let reqNames := match body with
      | BindOutcome.bindError => config.secretNames
      | BindOutcome.bound ns => ns
    let reqNames := if reqNames.length = 0 then config.secretNames else reqNames
    let looped := triggerLoop backend config.podNamespace reqNames
    if looped.2.1.length > 0 then
      ({ status := 206, successes := looped.1, errors := looped.2.1 }, false, looped.2.2)
    else
      ({ status := 200, successes := looped.1,
         message := "Sync triggered successfully" }, true, looped.2.2)

/-! ## Concrete backends used in counterexamples and witnesses -/

/-- A concrete trigger backend for which name "a" syncs and name "b" fails. -/
def mixedTriggerBackend : TriggerBackend :=
  { triggerSync := fun n _ =>
      if n = "a" then none else some { msg := "boom" } }

/-- Recognizer for resolver-invocation markers in a call trace. -/
def isResolveCall : Call → Bool
  | Call.resolve _ _ => true
  | _ => false

/-- A dynamic client whose lookups all answer plain not-found. -/
def stubDynClient : DynClient :=
  { listNs := fun _ => none
    getNs := fun _ _ => Except.error { isNotFound := true }
    getCluster := fun _ => Except.error { isNotFound := true } }

/-- Clients for which every secret read succeeds with an empty secret. -/
def stubClients : K8sClients :=
  { readSecret := fun _ _ => Except.ok { data := [], annotations := none }
    dynamicClient := some stubDynClient }

/-! ## Shared lemmas -/

/-- Both branches of `handleNotFoundError` yield an info value and a nil error. -/
lemma handleNotFoundError_total (name ns : String) (dc : DynClient) :
    ((handleNotFoundError name ns dc).1).1.isSome = true ∧
      ((handleNotFoundError name ns dc).1).2 = none := by
  unfold handleNotFoundError
  cases h : dc.getCluster name with
  | ok obj => simp [h]
  | error e => simp only [h]; split <;> simp

/-- Every classification branch of `handleGetError` yields an info value
and a nil error. -/
lemma handleGetError_total (name ns : String) (e : K8sErr) (dc : DynClient) :
    ((handleGetError name ns e dc).1).1.isSome = true ∧
      ((handleGetError name ns e dc).1).2 = none := by
  unfold handleGetError
  split
  · simp
  · split
    · exact handleNotFoundError_total name ns dc
    · split
      · simp
      · split <;> simp

/-- Totality of the resolver, stated as a shared lemma. -/
lemma resolver_total_aux (name ns : String) (dynamicClient : Option DynClient) :
    ((GetBitwardenSecretCRD name ns dynamicClient).1).1.isSome = true ∧
      ((GetBitwardenSecretCRD name ns dynamicClient).1).2 = none := by
  unfold GetBitwardenSecretCRD
  cases dynamicClient with
  | none => simp
  | some dc =>
    simp only
    split
    · simp
    · split
      · simp
      · cases hp : (checkAPIDiscovery ns dc).1 with
        | some apiErr => simp [hp]
        | none =>
          simp only [hp]
          cases hg : dc.getNs name ns with
          | ok obj => simp [hg]
          | error e => simpa [hg] using handleGetError_total name ns e dc

/-- Claim C1: the Resource Resolver is total.  For every name, namespace
and dynamic-client behaviour — nil client, empty inputs, discovery
failure, not-found at either scope, permission denied, invalid request or
any other backend error — `GetBitwardenSecretCRD` returns a `CRDInfo`
value together with a nil error; no transport-level error reaches the
caller. -/
theorem GetBitwardenSecretCRD_total (name ns : String) (dynamicClient : Option DynClient) :
    ((GetBitwardenSecretCRD name ns dynamicClient).1).1.isSome = true ∧
      ((GetBitwardenSecretCRD name ns dynamicClient).1).2 = none :=
  resolver_total_aux name ns dynamicClient

/-- After filtering out a client id, no element with that id remains. -/
lemma any_filter_ne_id (cs : List ClientConn) (cid : Nat) :
    (cs.filter (fun x => x.id != cid)).any (fun x => x.id == cid) = false := by
  simp only [List.any_eq_false]
  intro x hx
  have h2 := List.of_mem_filter hx
  simp only [bne_iff_ne, ne_eq] at h2
  simp [h2]

/-- Claim C7: unregistering is idempotent.  A second `unregister` for the
same connection leaves the hub state — client set and close-event history
— exactly as the first left it (no second removal, no double close), and
an `unregister` for a connection no longer in the set (for example one
already removed by a publish) is a no-op. -/
theorem hubUnregister_idempotent (h : Hub) (cid : Nat) :
    hubUnregister cid (hubUnregister cid h) = hubUnregister cid h ∧
      ((h.clients.any (fun x => x.id == cid)) = false → hubUnregister cid h = h) := by
  constructor
  · by_cases hmem : h.clients.any (fun x => x.id == cid) = true
    · have h1 : hubUnregister cid h =
          { clients := h.clients.filter (fun x => x.id != cid),
            closedEvents := h.closedEvents ++ [cid] } := by
        unfold hubUnregister; rw [if_pos hmem]
      rw [h1]
      unfold hubUnregister
      rw [if_neg]
      simp [any_filter_ne_id]
    · have h1 : hubUnregister cid h = h := by
        unfold hubUnregister; rw [if_neg hmem]
      rw [h1]; exact h1
  · intro hmem
    unfold hubUnregister
    rw [if_neg (by simp [hmem])]

/-- Witness for C7 at a concrete hub: unregistering client 1 twice equals
unregistering it once, and unregistering an absent client changes nothing. -/
theorem hubUnregister_idempotent_witness :
    hubUnregister 1 (hubUnregister 1 { clients := [{ id := 1 }, { id := 2 }] }) =
        hubUnregister 1 { clients := [{ id := 1 }, { id := 2 }] } ∧
      hubUnregister 3 { clients := [{ id := 1 }, { id := 2 }] } =
        { clients := [{ id := 1 }, { id := 2 }] } := by
  refine ⟨(hubUnregister_idempotent { clients := [{ id := 1 }, { id := 2 }] } 1).1, ?_⟩
  exact (hubUnregister_idempotent { clients := [{ id := 1 }, { id := 2 }] } 3).2 (by decide)

/-- The per-name step keeps the trimmed name it was given. -/
lemma readCRDInfo_name (crdName ns secretName : String) (k : K8sClients)
    (si : SecretInfo) : (readCRDInfo crdName ns secretName k si).1.name = si.name := by
  unfold readCRDInfo
  cases k.dynamicClient with
  | none => rfl
  | some dc =>
    simp only
    split
    · rfl
    · split <;> rfl

/-- The entry built for one trimmed, non-blank name carries that name. -/
lemma readOneSecret_name (t ns : String) (c : K8sClients) :
    (readOneSecret t ns c).1.name = t := by
  unfold readOneSecret
  cases h : c.readSecret t ns with
  | error e => simp [h]
  | ok secret =>
    simp only [h]
    split
    · exact readCRDInfo_name _ _ _ _ _
    · rfl

/-- Entry names of the connected-mode loop: trimmed names, blanks skipped. -/
lemma readSecretsLoop_names (ns : String) (c : K8sClients) (names : List String) :
    ((readSecretsLoop ns c names).1).map (fun si => si.name) =
      (names.map goTrimSpace).filter (fun t => t ≠ "") := by
  induction names with
  | nil => rfl
  | cons n rest ih =>
    by_cases h : goTrimSpace n = ""
    · simpa [readSecretsLoop, h] using ih
    · simp [readSecretsLoop, h, readOneSecret_name, ih]

/-- Entry names of the standalone loop: trimmed names, blanks skipped. -/
lemma standaloneEntries_names (names : List String) :
    (standaloneEntries names).map (fun si => si.name) =
      (names.map goTrimSpace).filter (fun t => t ≠ "") := by
  induction names with
  | nil => rfl
  | cons n rest ih =>
    by_cases h : goTrimSpace n = ""
    · simpa [standaloneEntries, h] using ih
    · simp [standaloneEntries, h, ih]

/-- Claim C8: for every configured name list, every namespace and every
backend behaviour (standalone included), `ReadSecrets` produces exactly
one entry per non-blank trimmed name, carrying that name, in the original
configuration order — individual failures never drop or reorder entries. -/
theorem ReadSecrets_entry_names (secretNames : List String) (ns : String)
    (k8sClients : Option K8sClients) :
    ((ReadSecrets secretNames ns k8sClients).1).map (fun si => si.name) =
      (secretNames.map goTrimSpace).filter (fun t => t ≠ "") := by
  cases k8sClients with
  | none => exact standaloneEntries_names secretNames
  | some c => exact readSecretsLoop_names ns c secretNames

/-- Claim C6: with no backend handle, every produced entry has
`found = false`, an empty keys map, an all-empty `SyncInfo` and the fixed
backend-unavailable error string, and the cycle performs zero backend
calls (an empty call trace). -/
theorem ReadSecrets_standalone (secretNames : List String) (ns : String) :
    (ReadSecrets secretNames ns none).2 = [] ∧
      ∀ si ∈ (ReadSecrets secretNames ns none).1,
        si.found = false ∧ si.keys = [] ∧ si.syncInfo = {} ∧
          si.error = "Kubernetes client not available - running in standalone mode" := by
  refine ⟨rfl, ?_⟩
  intro si hsi
  simp only [ReadSecrets] at hsi
  induction secretNames with
  | nil => simp [standaloneEntries] at hsi
  | cons n rest ih =>
    by_cases h : goTrimSpace n = ""
    · exact ih (by simpa [standaloneEntries, h] using hsi)
    · rcases (by simpa [standaloneEntries, h] using hsi) with h1 | h1
      · rw [h1]; exact ⟨rfl, rfl, rfl, rfl⟩
      · exact ih h1

/-- Witness for C6 at a concrete configuration: two names, one blank. -/
theorem ReadSecrets_standalone_witness :
    (ReadSecrets [" bw-db ", "  "] ("default") none).2 = [] ∧
      ((ReadSecrets [" bw-db ", "  "] ("default") none).1.all
        (fun si => si.found = false ∧ si.keys = [] ∧ si.syncInfo = {} ∧
          si.error = "Kubernetes client not available - running in standalone mode")) := by
  refine ⟨(ReadSecrets_standalone [" bw-db ", "  "] ("default")).1, ?_⟩
  rw [List.all_eq_true]
  intro si hsi
  have := (ReadSecrets_standalone [" bw-db ", "  "] ("default")).2 si (by
    simpa using hsi)
  simpa using this

/-- The trigger loop issues one `TriggerSync` call per non-blank trimmed
name, in order. -/
lemma triggerLoop_calls (backend : TriggerBackend) (ns : String) (names : List String) :
    (triggerLoop backend ns names).2.2 =
      ((names.map goTrimSpace).filter (fun t => t ≠ "")).map
        (fun t => Call.triggerSync t ns) := by
  induction names with
  | nil => rfl
  | cons n rest ih =>
    by_cases h : goTrimSpace n = ""
    · simpa [triggerLoop, h] using ih
    · cases hc : backend.triggerSync (goTrimSpace n) ns <;> simp [triggerLoop, h, hc, ih]

/-- Claim C10: the trigger endpoint never rejects a malformed body.  A
body that fails to bind behaves exactly like a bound empty list: the
handler targets the full configured name list (one `TriggerSync` call per
non-blank trimmed configured name, in order) and answers with the normal
200/206 outcome, never a client-error rejection. -/
theorem triggerSyncHandler_malformed_body (config : ServerConfig) (backend : TriggerBackend) :
    triggerSyncHandler config (some backend) BindOutcome.bindError =
        triggerSyncHandler config (some backend) (BindOutcome.bound []) ∧
      (triggerSyncHandler config (some backend) BindOutcome.bindError).2.2 =
        ((config.secretNames.map goTrimSpace).filter (fun t => t ≠ "")).map
          (fun t => Call.triggerSync t config.podNamespace) ∧
      ((triggerSyncHandler config (some backend) BindOutcome.bindError).1.status = 200 ∨
        (triggerSyncHandler config (some backend) BindOutcome.bindError).1.status = 206) := by
  refine ⟨?_, ?_, ?_⟩
  · unfold triggerSyncHandler
    simp
  · unfold triggerSyncHandler
    simp only [ite_self, List.length_nil]
    split <;> simpa using triggerLoop_calls backend config.podNamespace config.secretNames
  · unfold triggerSyncHandler
    by_cases hc : (triggerLoop backend config.podNamespace config.secretNames).2.1.length > 0
    · right; simp [hc]
    · left; simp [hc]

/-! ## C3: trigger endpoint outcome -/

/-- Counterexample to claim C3.  With targets ["a", "b"], name "a"
succeeds and name "b" fails, so the claim requires a forced out-of-band
publish; the handler instead returns 206 without publishing — the
broadcast flag is false although the successes list is non-empty. -/
theorem triggerSyncHandler_no_publish_on_partial_success :
    (triggerSyncHandler { secretNames := ["a", "b"], podNamespace := "default" }
        (some mixedTriggerBackend) (BindOutcome.bound ["a", "b"])).1.successes = ["a"] ∧
      (triggerSyncHandler { secretNames := ["a", "b"], podNamespace := "default" }
        (some mixedTriggerBackend) (BindOutcome.bound ["a", "b"])).1.status = 206 ∧
      (triggerSyncHandler { secretNames := ["a", "b"], podNamespace := "default" }
        (some mixedTriggerBackend) (BindOutcome.bound ["a", "b"])).2.1 = false := by
  decide

/-- Claim C3 as amended: the handler returns the successes and errors
lists, uses the partial-success code 206 exactly when at least one
requested name failed and the full-success code 200 otherwise, and forces
one out-of-band publish exactly when no name failed — a partial failure
suppresses the publish even when other names succeeded, and a cycle with
no failures publishes even when nothing was requested. -/
theorem triggerSyncHandler_outcome (config : ServerConfig) (backend : TriggerBackend)
    (body : BindOutcome) :
    ((triggerSyncHandler config (some backend) body).1.status = 206 ↔
        (triggerSyncHandler config (some backend) body).1.errors ≠ []) ∧
      ((triggerSyncHandler config (some backend) body).1.status = 200 ↔
        (triggerSyncHandler config (some backend) body).1.errors = []) ∧
      ((triggerSyncHandler config (some backend) body).2.1 = true ↔
        (triggerSyncHandler config (some backend) body).1.errors = []) := by
  unfold triggerSyncHandler
  cases body with
  | bindError =>
    simp only [ite_self]
    rcases hl : (triggerLoop backend config.podNamespace config.secretNames).2.1 with
        _ | ⟨x, xs⟩ <;>
      simp [hl]
  | bound ns =>
    simp only
    rcases hl : (triggerLoop backend config.podNamespace
        (if ns.length = 0 then config.secretNames else ns)).2.1 with _ | ⟨x, xs⟩ <;>
      simp [hl]

/-! ## C9: the per-value decode step -/

/-- Counterexample to claim C9.  The value "WVdKag==" decodes successfully
(to "YWJj", itself valid base64 for "abc"), yet applying the decode step
twice does not equal applying it once: the claim's idempotence fails on a
successfully-decoding value. -/
theorem DecodeSecretData_not_idempotent :
    (goB64Decode (strBytes ("WVdKag=="))).isSome = true ∧
      DecodeSecretData (DecodeSecretData [(("key"), strBytes ("WVdKag=="))]) ≠
        DecodeSecretData [(("key"), strBytes ("WVdKag=="))] := by
  decide

/-- Claim C9 as amended: values that fail decoding pass through unchanged,
and the decode step is idempotent on every data map none of whose
once-decoded values is itself valid base64; when a successfully decoded
value is again valid base64 (nested encoding), a second application
decodes it further, so unrestricted idempotence does not hold. -/
theorem DecodeSecretData_idempotent_on_terminal_values
    (data : List (String × List Nat))
    (h : ∀ kv ∈ data, goB64Decode (decodeValue kv.2) = none) :
    DecodeSecretData (DecodeSecretData data) = DecodeSecretData data ∧
      ∀ kv ∈ data, goB64Decode kv.2 = none → decodeValue kv.2 = kv.2 := by
  have decodeValue_of_fail : ∀ (v : List Nat), goB64Decode v = none → decodeValue v = v := by
    intro v hv
    unfold decodeValue
    rw [hv]
  constructor
  · unfold DecodeSecretData
    rw [List.map_map]
    apply List.map_congr_left
    intro kv hkv
    simp only [Function.comp]
    rw [decodeValue_of_fail (decodeValue kv.2) (h kv hkv)]
  · intro kv _ hfail
    exact decodeValue_of_fail kv.2 hfail

/-- Witness for the amended C9 at a concrete map: "hello" is not valid
base64, so it passes through unchanged and the map decodes idempotently. -/
theorem DecodeSecretData_idempotent_witness :
    DecodeSecretData (DecodeSecretData [(("k"), strBytes ("hello"))]) =
        DecodeSecretData [(("k"), strBytes ("hello"))] ∧
      decodeValue (strBytes ("hello")) = strBytes ("hello") := by
  have hterm : ∀ kv ∈ [(("k"), strBytes ("hello"))],
      goB64Decode (decodeValue kv.2) = none := by decide
  refine ⟨(DecodeSecretData_idempotent_on_terminal_values _ hterm).1, ?_⟩
  exact (DecodeSecretData_idempotent_on_terminal_values _ hterm).2
    (("k"), strBytes ("hello")) (by decide) (by decide)

/-! ## C2: which resource name the orchestrator hands the resolver -/

/-- `readCRDInfo` only rewrites the entry's `syncInfo` field. -/
lemma readCRDInfo_found (crdName ns secretName : String) (k : K8sClients)
    (si : SecretInfo) : (readCRDInfo crdName ns secretName k si).1.found = si.found := by
  unfold readCRDInfo
  cases k.dynamicClient with
  | none => rfl
  | some dc =>
    simp only
    split
    · rfl
    · split <;> rfl

/-- The resolver's own trace holds backend calls only, never a
resolver-invocation marker. -/
lemma GetBitwardenSecretCRD_no_resolve_marker (name ns : String)
    (dynamicClient : Option DynClient) :
    ((GetBitwardenSecretCRD name ns dynamicClient).2).filter isResolveCall = [] := by
  unfold GetBitwardenSecretCRD
  cases dynamicClient with
  | none => rfl
  | some dc =>
    simp only
    split
    · rfl
    · split
      · rfl
      · have hprobe : (checkAPIDiscovery ns dc).2.filter isResolveCall = [] := by
          unfold checkAPIDiscovery
          cases dc.listNs ns
          · rfl
          · simp only
            split <;> simp [isResolveCall]
        cases hp : (checkAPIDiscovery ns dc).1 with
        | some apiErr => simp [hp, hprobe]
        | none =>
          cases hg : dc.getNs name ns with
          | ok obj => simp [hp, hg, List.filter_append, hprobe, isResolveCall]
          | error e =>
            have hhandle : (handleGetError name ns e dc).2.filter isResolveCall = [] := by
              unfold handleGetError
              split
              · rfl
              · split
                · unfold handleNotFoundError
                  cases hcl : dc.getCluster name with
                  | ok obj => simp [isResolveCall]
                  | error e2 => simp only [hcl]; split <;> simp [isResolveCall]
                · split
                  · rfl
                  · split <;> rfl
            simp [hp, hg, List.filter_append, hprobe, hhandle, isResolveCall]

/-- Counterexample to claim C2.  The secret "alpha" is read successfully
(its entry has found=true) yet no resolver invocation happens at all; and
for the found secret "bw-alpha" the resolver is invoked with "alpha", not
with the secret's own name "bw-alpha". -/
theorem ReadSecrets_resolver_name_counterexample :
    ((ReadSecrets [("alpha")] ("default") (some stubClients)).1.map
        (fun si => si.found) = [true]) ∧
      ((ReadSecrets [("alpha")] ("default") (some stubClients)).2 =
        [Call.secretGet ("alpha") ("default")]) ∧
      (Call.resolve ("bw-alpha") ("default") ∉
        (ReadSecrets [("bw-alpha")] ("default") (some stubClients)).2) ∧
      (Call.resolve ("alpha") ("default") ∈
        (ReadSecrets [("bw-alpha")] ("default") (some stubClients)).2) := by
  decide

/-- Claim C2 as amended: for a configured (trimmed, non-blank) name whose
secret read succeeds, the entry is found, and the Resolver is invoked
exactly when the name starts with "bw-" and the dynamic client is
initialized — and then exactly once, with the name minus its "bw-"
prefix (not the secret's own name); the SyncInfo the resolver returns is
merged into the entry on top of the secret's own sync-time annotation.
Names without the prefix never reach the resolver. -/
theorem readOneSecret_resolver_invocation (t ns : String) (c : K8sClients)
    (secret : Secret) (hok : c.readSecret t ns = Except.ok secret) :
    ((readOneSecret t ns c).2.filter isResolveCall =
        (if hasPfx ("bw-") t && c.dynamicClient.isSome then
          [Call.resolve (trimLeading ("bw-") t) ns] else [])) ∧
      (readOneSecret t ns c).1.found = true ∧
      (∀ dc, c.dynamicClient = some dc → hasPfx ("bw-") t = true →
        ∀ crdInfo,
          ((GetBitwardenSecretCRD (trimLeading ("bw-") t) ns (some dc)).1).1 = some crdInfo →
          (readOneSecret t ns c).1.syncInfo =
            mergeCRDInfo { k8sSecretSyncTime := GetSecretSyncTime secret } crdInfo) := by
  refine ⟨?_, ?_, ?_⟩
  · unfold readOneSecret
    rw [hok]
    simp only
    by_cases hbw : hasPfx ("bw-") t = true
    · rw [if_pos hbw]
      cases hdc : c.dynamicClient with
      | none => simp [readCRDInfo, hdc, hbw, isResolveCall]
      | some dc =>
        simp only [readCRDInfo, hdc]
        have hnores :=
          GetBitwardenSecretCRD_no_resolve_marker (trimLeading ("bw-") t) ns (some dc)
        rcases htot : ((GetBitwardenSecretCRD (trimLeading ("bw-") t) ns (some dc)).1).2 with
            _ | e
        · rcases hinfo : ((GetBitwardenSecretCRD (trimLeading ("bw-") t) ns (some dc)).1).1 with
              _ | crdInfo
          · simp [htot, hinfo, hbw, isResolveCall, hnores, hdc]
          · simp [htot, hinfo, hbw, isResolveCall, hnores, hdc]
        · simp [htot, hbw, isResolveCall, hnores, hdc]
    · simp [hbw, isResolveCall]
  · unfold readOneSecret
    rw [hok]
    simp only
    split
    · rw [readCRDInfo_found]
    · rfl
  · intro dc hdc hbw crdInfo hinfo
    unfold readOneSecret
    rw [hok]
    simp only [if_pos hbw]
    have htot := resolver_total_aux (trimLeading ("bw-") t) ns (some dc)
    simp only [readCRDInfo, hdc]
    rw [show ((GetBitwardenSecretCRD (trimLeading ("bw-") t) ns (some dc)).1).2 = none
      from htot.2]
    rw [hinfo]

/-- Witness for the amended C2: the found secret "bw-db" leads to exactly
one resolver invocation, under the stripped name "db". -/
theorem readOneSecret_resolver_invocation_witness :
    ((readOneSecret ("bw-db") ("default") stubClients).2.filter isResolveCall =
        [Call.resolve ("db") ("default")]) ∧
      (readOneSecret ("bw-db") ("default") stubClients).1.found = true := by
  have h := readOneSecret_resolver_invocation ("bw-db") ("default") stubClients
    { data := [], annotations := none } rfl
  refine ⟨?_, h.2.1⟩
  rw [h.1]
  decide

/-! ## C4: scope-fallback policy of the resolver -/

/-- `handleNotFoundError` performs exactly the cluster-scoped get. -/
lemma handleNotFoundError_trace (name ns : String) (dc : DynClient) :
    (handleNotFoundError name ns dc).2 = [Call.clusterGet name] := by
  unfold handleNotFoundError
  cases h : dc.getCluster name with
  | ok obj => rfl
  | error e => simp only; split <;> rfl

/-- `handleGetError` retries at cluster scope exactly for an error that is
a 404 without a discovery signal; every other class performs no call. -/
lemma handleGetError_trace (name ns : String) (e : K8sErr) (dc : DynClient) :
    (handleGetError name ns e dc).2 =
      (if isAPIDiscoveryError e = false ∧ e.isNotFound = true then
        [Call.clusterGet name] else []) := by
  unfold handleGetError
  by_cases hd : isAPIDiscoveryError e = true
  · simp [hd]
  · rw [if_neg hd]
    by_cases hnf : e.isNotFound = true
    · rw [if_pos hnf, handleNotFoundError_trace]
      have hd2 : isAPIDiscoveryError e = false := by
        simp at hd
        exact hd
      simp [hnf, hd2]
    · rw [if_neg hnf]
      have : ¬(isAPIDiscoveryError e = false ∧ e.isNotFound = true) := fun hc => hnf hc.2
      rw [if_neg this]
      split
      · rfl
      · split <;> rfl

/-- The discovery probe's trace is always the single List call. -/
lemma checkAPIDiscovery_trace (ns : String) (dc : DynClient) :
    (checkAPIDiscovery ns dc).2 = [Call.list ns] := by
  unfold checkAPIDiscovery
  cases dc.listNs ns
  · rfl
  · simp only
    split <;> rfl

/-- Claim C4: scope-fallback policy.  For every resolver run:
(a) a cluster-scoped lookup happens only for the requested name, only
after the namespace-scoped lookup returned an explicit not-found (a 404
whose message carries no discovery signal — an error carrying both is
classified as a discovery failure), and then the whole trace is exactly
probe, namespace-scoped get, cluster-scoped get, in that order;
(b) whenever the namespace-scoped lookup does return such an explicit
not-found, the cluster-scoped lookup is performed;
(c) when the namespace-scoped lookup succeeds, its object's value is the
result and cluster scope is never consulted. -/
theorem resolver_scope_fallback (name ns : String) (dc : DynClient) :
    (∀ n, Call.clusterGet n ∈ (GetBitwardenSecretCRD name ns (some dc)).2 →
        n = name ∧
        (∃ e, dc.getNs name ns = Except.error e ∧ e.isNotFound = true ∧
          isAPIDiscoveryError e = false) ∧
        (GetBitwardenSecretCRD name ns (some dc)).2 =
          [Call.list ns, Call.nsGet name ns, Call.clusterGet name]) ∧
      (∀ e, dc.getNs name ns = Except.error e → e.isNotFound = true →
        isAPIDiscoveryError e = false → name ≠ "" → ns ≠ "" →
        (checkAPIDiscovery ns dc).1 = none →
        (GetBitwardenSecretCRD name ns (some dc)).2 =
          [Call.list ns, Call.nsGet name ns, Call.clusterGet name]) ∧
      (∀ obj, dc.getNs name ns = Except.ok obj → name ≠ "" → ns ≠ "" →
        (checkAPIDiscovery ns dc).1 = none →
        ((GetBitwardenSecretCRD name ns (some dc)).1).1 = some (extractCRDInfo obj) ∧
          ∀ n, Call.clusterGet n ∉ (GetBitwardenSecretCRD name ns (some dc)).2) := by
  refine ⟨?_, ?_, ?_⟩
  · intro n hmem
    simp only [GetBitwardenSecretCRD] at hmem ⊢
    by_cases hn : name = ""
    · simp [hn] at hmem
    · by_cases hns : ns = ""
      · simp [hn, hns] at hmem
      · simp only [hn, hns, if_false, if_neg hn, if_neg hns] at hmem ⊢
        cases hp : (checkAPIDiscovery ns dc).1 with
        | some apiErr =>
          rw [hp] at hmem
          simp only [checkAPIDiscovery_trace] at hmem
          simp at hmem
        | none =>
          simp only [hp] at hmem ⊢
          cases hg : dc.getNs name ns with
          | ok obj =>
            simp only [hg] at hmem
            simp [checkAPIDiscovery_trace] at hmem
          | error e =>
            simp only [hg] at hmem ⊢
            simp only [checkAPIDiscovery_trace, handleGetError_trace] at hmem ⊢
            by_cases hcls : isAPIDiscoveryError e = false ∧ e.isNotFound = true
            · rw [if_pos hcls] at hmem
              simp only [List.mem_append, List.mem_singleton, List.mem_cons,
                List.not_mem_nil] at hmem
              rcases hmem with (hmem | hmem) | hmem
              · exact absurd hmem (by simp)
              · exact absurd hmem (by simp)
              · cases hmem with
                | inl hcl =>
                  refine ⟨(Call.clusterGet.injEq n name).mp hcl, ⟨e, rfl, hcls.2, hcls.1⟩, ?_⟩
                  rw [if_pos hcls]
                  rfl
                | inr hfalse => simp at hfalse
            · rw [if_neg hcls] at hmem
              simp at hmem
  · intro e hg hnf hnd hn hns hp
    simp only [GetBitwardenSecretCRD]
    rw [if_neg hn, if_neg hns]
    simp only [hp, hg, checkAPIDiscovery_trace, handleGetError_trace]
    rw [if_pos ⟨hnd, hnf⟩]
    rfl
  · intro obj hg hn hns hp
    simp only [GetBitwardenSecretCRD]
    rw [if_neg hn, if_neg hns]
    simp only [hp, hg, checkAPIDiscovery_trace]
    constructor
    · trivial
    · intro n
      simp

/-- Witness for C4: a backend answering plain not-found at namespace
scope; the resolver's trace is probe, namespace get, cluster get. -/
theorem resolver_scope_fallback_witness :
    (GetBitwardenSecretCRD ("db") ("default") (some stubDynClient)).2 =
      [Call.list ("default"), Call.nsGet ("db") ("default"), Call.clusterGet ("db")] :=
  (resolver_scope_fallback ("db") ("default") stubDynClient).2.1
    { isNotFound := true } rfl rfl (by decide) (by decide) (by decide) rfl

/-! ## C5: publish delivery -/

/-- If an id does not occur among a client list's ids, the broadcast
survivors contain no client with that id. -/
lemma broadcast_survivors_of_not_mem (message : List Nat) (cid : Nat) :
    ∀ cs : List ClientConn, cid ∉ cs.map (fun x => x.id) →
      ((cs.filterMap (fun c =>
          if c.sendQueue.length < c.capacity then
            some { c with sendQueue := c.sendQueue ++ [message] }
          else none)).filter (fun x => x.id == cid)) = [] := by
  intro cs
  induction cs with
  | nil => intro _; rfl
  | cons c rest ih =>
    intro hnin
    simp only [List.map_cons, List.mem_cons, not_or] at hnin
    by_cases hq : c.sendQueue.length < c.capacity
    · simp only [List.filterMap_cons, if_pos hq, List.filter_cons]
      rw [if_neg (by simpa using fun hcontra => hnin.1 hcontra.symm)]
      exact ih (by simpa using hnin.2)
    · simp only [List.filterMap_cons, if_neg hq]
      exact ih (by simpa using hnin.2)

/-- If an id does not occur among a client list's ids, it is not closed by
the broadcast pass. -/
lemma broadcast_closes_of_not_mem (cid : Nat) :
    ∀ cs : List ClientConn, cid ∉ cs.map (fun x => x.id) →
      (((cs.filter (fun c => !(c.sendQueue.length < c.capacity))).map
        (fun c => c.id)).count cid) = 0 := by
  intro cs
  induction cs with
  | nil => intro _; rfl
  | cons c rest ih =>
    intro hnin
    simp only [List.map_cons, List.mem_cons, not_or] at hnin
    have ht := ih (by simpa using hnin.2)
    by_cases hq : c.sendQueue.length < c.capacity
    · simp [List.filter_cons, hq, ht]
    · simp [List.filter_cons, hq, List.count_cons, ht, hnin.1]

/-- Per-client effect of the broadcast pass on the survivor set: a client
with queue space survives exactly once, with the message appended; a
saturated client is removed. -/
lemma broadcast_survivors_mem (message : List Nat) (c : ClientConn) :
    ∀ cs : List ClientConn, (cs.map (fun x => x.id)).Nodup → c ∈ cs →
      ((cs.filterMap (fun x =>
          if x.sendQueue.length < x.capacity then
            some { x with sendQueue := x.sendQueue ++ [message] }
          else none)).filter (fun x => x.id == c.id)) =
        (if c.sendQueue.length < c.capacity then
          [{ c with sendQueue := c.sendQueue ++ [message] }] else []) := by
  intro cs
  induction cs with
  | nil => intro _ hc; exact absurd hc (List.not_mem_nil c)
  | cons x rest ih =>
    intro hn hc
    simp only [List.map_cons, List.nodup_cons] at hn
    rcases List.mem_cons.mp hc with hcx | hcr
    · subst hcx
      have hrest := broadcast_survivors_of_not_mem message c.id rest hn.1
      by_cases hq : c.sendQueue.length < c.capacity
      · simp [List.filterMap_cons, hq, List.filter_cons, hrest]
      · simp [List.filterMap_cons, hq, hrest]
    · have hne : x.id ≠ c.id := by
        intro hcontra
        exact hn.1 (hcontra ▸ (List.mem_map_of_mem (fun y => y.id) hcr))
      by_cases hq : x.sendQueue.length < x.capacity
      · simp only [List.filterMap_cons, if_pos hq, List.filter_cons]
        rw [if_neg (by simpa using hne)]
        exact ih hn.2 hcr
      · simp only [List.filterMap_cons, if_neg hq]
        exact ih hn.2 hcr

/-- Per-client effect of the broadcast pass on the close events: a
saturated client's channel is closed exactly once, a client with queue
space is not closed. -/
lemma broadcast_closes_count (c : ClientConn) :
    ∀ cs : List ClientConn, (cs.map (fun x => x.id)).Nodup → c ∈ cs →
      (((cs.filter (fun x => !(x.sendQueue.length < x.capacity))).map
        (fun x => x.id)).count c.id) =
        (if c.sendQueue.length < c.capacity then 0 else 1) := by
  intro cs
  induction cs with
  | nil => intro _ hc; exact absurd hc (List.not_mem_nil c)
  | cons x rest ih =>
    intro hn hc
    simp only [List.map_cons, List.nodup_cons] at hn
    rcases List.mem_cons.mp hc with hcx | hcr
    · subst hcx
      have hrest := broadcast_closes_of_not_mem c.id rest hn.1
      by_cases hq : c.sendQueue.length < c.capacity
      · simp [List.filter_cons, hq, hrest]
      · simp [List.filter_cons, hq, List.count_cons, hrest]
    · have hne : x.id ≠ c.id := by
        intro hcontra
        exact hn.1 (hcontra ▸ (List.mem_map_of_mem (fun y => y.id) hcr))
      have ht := ih hn.2 hcr
      have hne2 : ¬c.id = x.id := fun hh => hne hh.symm
      by_cases hq : x.sendQueue.length < x.capacity
      · simp [List.filter_cons, hq, ht]
      · simp [List.filter_cons, hq, List.count_cons, ht, hne2]

/-- Claim C5: publishing a snapshot delivers exactly one copy of the
message to every registered connection whose queue has free capacity (the
survivor set holds exactly one client with that id, with the message
appended to its queue, and its channel is not closed); a connection whose
queue is full is instead removed (no client with its id survives) and its
channel is closed exactly once; and `broadcastMessage` never blocks — a
saturated dispatch channel makes it drop the publish, leaving the hub
unchanged. -/
theorem hubBroadcast_delivery (h : Hub) (message : List Nat) (c : ClientConn)
    (hn : (h.clients.map (fun x => x.id)).Nodup) (hc : c ∈ h.clients) :
    (c.sendQueue.length < c.capacity →
      ((hubBroadcast message h).clients.filter (fun x => x.id == c.id) =
          [{ c with sendQueue := c.sendQueue ++ [message] }]) ∧
        (hubBroadcast message h).closedEvents.count c.id = h.closedEvents.count c.id) ∧
      (¬ c.sendQueue.length < c.capacity →
        ((hubBroadcast message h).clients.filter (fun x => x.id == c.id) = []) ∧
          (hubBroadcast message h).closedEvents.count c.id =
            h.closedEvents.count c.id + 1) ∧
      broadcastMessage false message h = h := by
  have hsurv := broadcast_survivors_mem message c h.clients hn hc
  have hclose := broadcast_closes_count c h.clients hn hc
  refine ⟨?_, ?_, rfl⟩
  · intro hq
    constructor
    · rw [show (hubBroadcast message h).clients = h.clients.filterMap (fun x =>
          if x.sendQueue.length < x.capacity then
            some { x with sendQueue := x.sendQueue ++ [message] }
          else none) from rfl]
      rw [hsurv, if_pos hq]
    · rw [show (hubBroadcast message h).closedEvents = h.closedEvents ++
          (h.clients.filter (fun x => !(x.sendQueue.length < x.capacity))).map
            (fun x => x.id) from rfl]
      rw [List.count_append, hclose, if_pos hq, Nat.add_zero]
  · intro hq
    constructor
    · rw [show (hubBroadcast message h).clients = h.clients.filterMap (fun x =>
          if x.sendQueue.length < x.capacity then
            some { x with sendQueue := x.sendQueue ++ [message] }
          else none) from rfl]
      rw [hsurv, if_neg hq]
    · rw [show (hubBroadcast message h).closedEvents = h.closedEvents ++
          (h.clients.filter (fun x => !(x.sendQueue.length < x.capacity))).map
            (fun x => x.id) from rfl]
      rw [List.count_append, hclose, if_neg hq]

/-- Witness for C5 at a concrete hub: client 1 has queue space and gets
the message; client 2's queue is full, so it is removed and closed once. -/
theorem hubBroadcast_delivery_witness :
    ((hubBroadcast [7] { clients :=
        [{ id := 1, capacity := 2, sendQueue := [] },
         { id := 2, capacity := 1, sendQueue := [[5]] }] }).clients.filter
        (fun x => x.id == 1) =
      [{ id := 1, capacity := 2, sendQueue := [[7]] }]) ∧
      ((hubBroadcast [7] { clients :=
        [{ id := 1, capacity := 2, sendQueue := [] },
         { id := 2, capacity := 1, sendQueue := [[5]] }] }).clients.filter
        (fun x => x.id == 2) = []) ∧
      ((hubBroadcast [7] { clients :=
        [{ id := 1, capacity := 2, sendQueue := [] },
         { id := 2, capacity := 1, sendQueue := [[5]] }] }).closedEvents.count 2 = 1) := by
  refine ⟨?_, ?_, ?_⟩
  · have := (hubBroadcast_delivery { clients :=
        [{ id := 1, capacity := 2, sendQueue := [] },
         { id := 2, capacity := 1, sendQueue := [[5]] }] } [7]
        { id := 1, capacity := 2, sendQueue := [] } (by decide) (by decide)).1
      (by decide)
    exact this.1
  · have := ((hubBroadcast_delivery { clients :=
        [{ id := 1, capacity := 2, sendQueue := [] },
         { id := 2, capacity := 1, sendQueue := [[5]] }] } [7]
        { id := 2, capacity := 1, sendQueue := [[5]] } (by decide) (by decide)).2).1
      (by decide)
    exact this.1
  · have := ((hubBroadcast_delivery { clients :=
        [{ id := 1, capacity := 2, sendQueue := [] },
         { id := 2, capacity := 1, sendQueue := [[5]] }] } [7]
        { id := 2, capacity := 1, sendQueue := [[5]] } (by decide) (by decide)).2).1
      (by decide)
    simpa using this.2

end BitwardenReader